import Mathlib

/-!
Shallow embedding of the PPG diabetes-risk pipeline
(`src/signal_processing/*.py`) over exact rational arithmetic, together
with theorems settling the spec claims about it.

Conventions of the embedding:
* Python floats become `ℚ`; literal constants such as `0.45` become the
  exact rationals they denote in the source text.
* `np.clip(x, lo, hi)` becomes `clip x lo hi = min hi (max lo x)`.
* A metadata / feature value that is absent, `NaN`, or fails `float(...)`
  parsing is modelled as `none : Option ℚ`; every such value takes the
  same code path in the source (the contribution is skipped / zero).
* Python `str(x).lower() in ("1","yes","y","true")` is modelled on
  `Option String`, with `none` standing for Python `None`
  (`str(None).lower() = "none"` is not in the tuple, so `none ↦ false`).
* `scipy.signal.find_peaks` output is abstracted as the strictly
  increasing index lists it returns; the pairing, truncation, counting
  and guard logic downstream of it is embedded verbatim.
-/

namespace PPG

/-- Embedding of `np.clip(x, lo, hi)`. -/
def clip (x lo hi : ℚ) : ℚ := min hi (max lo x)

/-- Embedding of `clamp01` from `feature_normalisation.py` (line 29). -/
def clamp01 (x : ℚ) : ℚ := clip x 0 1

/-! ## Risk model (`risk_model.py`) -/

/-- `BASELINE_PREVALENCE = 0.12` (risk_model.py line 12). -/
def BASELINE_PREVALENCE : ℚ := 12/100

/-- `METADATA_WEIGHTS["family_history_first_degree"] = 0.45`. -/
def FAMILY_W : ℚ := 45/100

/-- `METADATA_WEIGHTS["age"] = 0.25`. -/
def AGE_W : ℚ := 25/100

/-- `METADATA_WEIGHTS["physical_activity_hrs_per_week"] = -0.20`. -/
def ACT_W : ℚ := -(20/100)

/-- `METADATA_WEIGHTS["sleep_hours"] = -0.10`. -/
def SLEEP_W : ℚ := -(10/100)

/-- `METADATA_WEIGHTS["smoking_status"] = 0.35`. -/
def SMOKE_W : ℚ := 35/100

/-- Resolved metadata values consumed by `compute_metadata_adjustment`
(risk_model.py lines 41-57).  Each field is the result of the source's
ordered key-fallback chain (`features.get(a) or features.get(b)`); a
field is `none` when every key in its chain yields a falsy value or the
later `float(...)` conversion would fail. -/
structure Metadata where
  family : Option String
  smoking : Option String
  age : Option ℚ
  sleep_hours : Option ℚ
  activity : Option ℚ

/-- Embedding of `str(x).lower() in ("1", "yes", "y", "true")`
(risk_model.py lines 64 and 151); `none` models Python `None`,
for which `str(None).lower() = "none"` is not in the tuple. -/
def truthyFlag (s : Option String) : Bool :=
  match s with
  | none => false
  | some v => v.toLower == "1" || v.toLower == "yes" || v.toLower == "y" || v.toLower == "true"

/-- Age bracket contribution (risk_model.py lines 71-95). -/
def age_contrib : Option ℚ → ℚ
  | none => 0
  | some a =>
    if 70 ≤ a then AGE_W * 1
    else if 60 ≤ a then AGE_W * (85/100)
    else if 50 ≤ a then AGE_W * (6/10)
    else if 45 ≤ a then AGE_W * (35/100)
    else if 35 ≤ a then AGE_W * (1/10)
    else 0

/-- Physical-activity tier contribution (risk_model.py lines 103-123).
The branch order and conditions (`act <= 1`, `act == 2`, `3 <= act < 4`,
final `else`) are taken verbatim from the source. -/
def activity_contrib : Option ℚ → ℚ
  | none => 0
  | some act =>
    if act ≤ 1 then |ACT_W| * 1
    else if act = 2 then |ACT_W| * (1/2)
    else if 3 ≤ act ∧ act < 4 then ACT_W * (3/10)
    else ACT_W * (8/10)

/-- Sleep bracket contribution (risk_model.py lines 127-147).  Values in
`[6, 7)` match no branch and contribute 0, exactly as in the source. -/
def sleep_contrib : Option ℚ → ℚ
  | none => 0
  | some sh =>
    if sh < 4 then 10/100
    else if sh < 6 then 6/100
    else if 7 ≤ sh ∧ sh ≤ 9 then SLEEP_W * (8/10)
    else if 9 < sh then 5/100
    else 0

/-- Embedding of `compute_metadata_adjustment` (risk_model.py lines
29-162): the five tiered contributions are accumulated into `adj` and
the sum is clamped to `[-0.35, 0.90]` by `np.clip`. -/
def compute_metadata_adjustment (m : Metadata) : ℚ :=
  let adj : ℚ :=
    (if truthyFlag m.family then FAMILY_W else 0)
    + age_contrib m.age
    + activity_contrib m.activity
    + sleep_contrib m.sleep_hours
    + (if truthyFlag m.smoking then SMOKE_W else 0)
  clip adj (-(35/100)) (90/100)

/-- Result triple of `physiology_to_absolute_probability`. -/
structure RiskTriple where
  current : ℚ
  ten : ℚ
  thirty : ℚ

/-- Embedding of `physiology_to_absolute_probability` (risk_model.py
lines 165-200). -/
def physiology_to_absolute_probability (phys_score metadata_adj baseline : ℚ) : RiskTriple :=
  let ps := max 0 (min phys_score 1)
  let weighted_phys := (60/100) * (ps * (18/10))
  let weighted_meta := (40/100) * (metadata_adj * (12/10))
  let combined_factor := 1 + weighted_phys + weighted_meta
  let current := clip (baseline * combined_factor) 0 (50/100)
  let ten := clip (current * (1 + (40/100) * ps + max 0 metadata_adj * (6/10))) 0 (65/100)
  let thirty := clip (current * (1 + (85/100) * ps + max 0 metadata_adj * (11/10))) 0 (80/100)
  ⟨current, ten, thirty⟩

/-! ## Physiology normalisation (`feature_normalisation.py`) -/

/-- Embedding of `risk_from_deviation` (feature_normalisation.py lines
15-27).  `none` models a value that is `None` or fails `float(...)`
parsing; both source paths return `0.0`. -/
def risk_from_deviation (value : Option ℚ) (normal_min normal_max weight : ℚ) : ℚ :=
  match value with
  | none => 0
  | some val =>
    if normal_min ≤ val ∧ val ≤ normal_max then 0
    else
      let dist := min |val - normal_min| |val - normal_max|
      let norm_range := max (1/1000000) (normal_max - normal_min)
      clip (dist / norm_range * weight) 0 1

/-- Deviation-risk formula as the spec words it (spec section 4.4 /
section 8): `clip(min(|v-low|, |v-high|) / (high-low), 0, 1)` outside
the band, 0 inside.  Declared only to compare against the source's
`risk_from_deviation`, whose denominator is `max(1e-6, high-low)`. -/
def risk_spec_formula (val normal_min normal_max : ℚ) : ℚ :=
  if normal_min ≤ val ∧ val ≤ normal_max then 0
  else clip (min |val - normal_min| |val - normal_max| / (normal_max - normal_min)) 0 1

/-- The five weighted features of `PPG_WEIGHTS` / `HEALTH_RANGES`
(feature_normalisation.py lines 33-47), with `none` for a missing,
`NaN`, or unparseable entry (`safe_get` plus the parse guard inside
`risk_from_deviation`). -/
structure FeatureRecord where
  heart_rate_bpm : Option ℚ
  hrv_ms : Option ℚ
  amplitude_mean : Option ℚ
  rise_time_mean_s : Option ℚ
  bmi : Option ℚ

/-- Embedding of `compute_physiology_score` (feature_normalisation.py
lines 50-68) with the loop over `PPG_WEIGHTS` unrolled over its five
entries; every call site passes `weight=1.0` to `risk_from_deviation`,
as the source loop does. -/
def compute_physiology_score (f : FeatureRecord) : ℚ :=
  let score :=
    risk_from_deviation f.heart_rate_bpm 60 100 1 * (22/100)
    + risk_from_deviation f.hrv_ms 20 120 1 * (25/100)
    + risk_from_deviation f.amplitude_mean (2/10) (12/10) 1 * (18/100)
    + risk_from_deviation f.rise_time_mean_s (12/100) (6/10) 1 * (18/100)
    + risk_from_deviation f.bmi (185/10) (249/10) 1 * (17/100)
  let total_w : ℚ := 22/100 + 25/100 + 18/100 + 18/100 + 17/100
  if total_w ≤ 0 then 0 else clamp01 (score / total_w)

/-! ## Beat detection (`beat_detection.py`) and beat pairing in the
feature extractor (`feature_extraction.py`) -/

/-- Foot-to-peak pairing of `detect_beats` (beat_detection.py lines
38-43): for each peak, the latest valley strictly before it; a peak
with no prior valley contributes nothing.  `peaks` and `valleys` are the
index lists produced by `find_peaks`. -/
def pairedFeet (peaks valleys : List ℕ) : List ℕ :=
  peaks.filterMap (fun p => (valleys.filter (fun v => decide (v < p))).getLast?)

/-- Count of detected peaks that have at least one valley strictly
before them, i.e. the peaks that received a foot. -/
def peaksWithFoot (peaks valleys : List ℕ) : ℕ :=
  (peaks.filter (fun p => !(valleys.filter (fun v => decide (v < p))).isEmpty)).length

/-- Result dictionary of `detect_beats` (beat_detection.py lines
63-69); `beats_count` is `len(peaks)` in the source. -/
structure BeatsResult where
  foot_indices : List ℕ
  peak_indices : List ℕ
  beats_count : ℕ

/-- Embedding of the output of `detect_beats` (beat_detection.py lines
37-69), abstracting the `find_peaks` calls as the peak / valley index
lists they return. -/
def detect_beats (peaks valleys : List ℕ) : BeatsResult :=
  { foot_indices := pairedFeet peaks valleys
    peak_indices := peaks
    beats_count := peaks.length }

/-- Embedding of the guard and beat pairing of `extract_ppg_features`
(feature_extraction.py lines 84-103): truncate both lists to the common
length, return nothing ("Not enough peaks detected", an empty feature
dict) when fewer than 2 truncated peaks remain, otherwise the
positional (foot, peak) beat pairs all per-beat features are computed
over.  The derived numeric descriptors are not needed by any claim and
are not embedded. -/
def extract_ppg_features (peak_indices foot_indices : List ℕ) : Option (List (ℕ × ℕ)) :=
  let n := min peak_indices.length foot_indices.length
  let peaks := peak_indices.take n
  let feet := foot_indices.take n
  if peaks.length < 2 then none
  else some (List.zip feet peaks)

/-! ## Sampling-rate estimation (`preprocess.py` lines 82-88) -/

/-- `DEFAULT_FS = 100` (preprocess.py line 11). -/
def DEFAULT_FS : ℤ := 100

/-- Embedding of `np.diff`: consecutive differences `xs[i+1] - xs[i]`. -/
def npDiff (xs : List ℚ) : List ℚ :=
  List.zipWith (fun a b => a - b) xs.tail xs

/-- Embedding of `np.percentile(xs, q)` with the default linear
interpolation: sort ascending, take `h = (n-1)·q/100`, and interpolate
between the entries at `⌊h⌋` and `⌊h⌋+1` (when `⌊h⌋+1` runs past the
end, which only happens with interpolation weight 0, the lower entry is
used, matching numpy's index clipping).  Empty input is mapped to 0;
numpy raises there and no claim depends on it. -/
def percentile (xs : List ℚ) (q : ℚ) : ℚ :=
  if xs = [] then 0
  else
    let s := List.insertionSort (fun a b => a ≤ b) xs
    let h : ℚ := ((xs.length - 1 : ℕ) : ℚ) * q / 100
    let i : ℕ := ⌊h⌋₊
    let lo := s.getD i 0
    let hi := s.getD (i + 1) lo
    lo + (h - (i : ℚ)) * (hi - lo)

/-- Round-half-to-even, the behaviour of Python's builtin `round` (and
numpy's) used at preprocess.py line 86. -/
def round_half_even (q : ℚ) : ℤ :=
  if q - ⌊q⌋ = 1/2 then (if 2 ∣ ⌊q⌋ then ⌊q⌋ else ⌊q⌋ + 1) else round q

/-- Embedding of the sampling-rate estimation of `preprocess_latest_csv`
(preprocess.py lines 82-88): millisecond timestamp deltas are converted
to seconds, only deltas strictly below their 95th percentile are kept,
and the rounded reciprocal of their mean is returned; with no surviving
delta the fallback is `DEFAULT_FS`. -/
def estimate_fs (timestamps_ms : List ℚ) : ℤ :=
  let time_diff := (npDiff timestamps_ms).map (fun x => x / 1000)
  let valid_diffs := time_diff.filter (fun x => decide (x < percentile time_diff 95))
  if 0 < valid_diffs.length then
    round_half_even (1 / (valid_diffs.sum / (valid_diffs.length : ℚ)))
  else DEFAULT_FS

/-- Evenly spaced timestamp sequence `t0, t0+d, …, t0+(n-1)·d`, used to
exercise `estimate_fs` on a perfectly regular recording. -/
def arithSeq (t0 d : ℚ) : ℕ → List ℚ
  | 0 => []
  | n + 1 => t0 :: arithSeq (t0 + d) d n

/-- An optional feature value lies inside the band `[lo, hi]` whenever it
is present; a missing value satisfies this vacuously (it contributes no
deviation risk). -/
def optInBand (v : Option ℚ) (lo hi : ℚ) : Prop :=
  ∀ x, v = some x → lo ≤ x ∧ x ≤ hi

/-! ## General lemmas about the embedded operations -/

theorem clip_le {x lo hi : ℚ} (h : lo ≤ hi) : lo ≤ clip x lo hi ∧ clip x lo hi ≤ hi := by
  unfold clip
  constructor
  · exact le_min h (le_max_left lo x)
  · exact min_le_left hi _

theorem clip_mono {x y lo hi : ℚ} (h : x ≤ y) : clip x lo hi ≤ clip y lo hi := by
  unfold clip
  exact min_le_min le_rfl (max_le_max le_rfl h)

theorem risk_from_deviation_of_inBand {v : Option ℚ} {lo hi : ℚ}
    (h : optInBand v lo hi) (wt : ℚ) : risk_from_deviation v lo hi wt = 0 := by
  cases v with
  | none => rfl
  | some x =>
    simp only [risk_from_deviation]
    rw [if_pos (h x rfl)]

theorem npDiff_cons_cons (x y : ℚ) (l : List ℚ) :
    npDiff (x :: y :: l) = (y - x) :: npDiff (y :: l) := rfl

theorem npDiff_arithSeq (d : ℚ) : ∀ (k : ℕ) (t0 : ℚ),
    npDiff (arithSeq t0 d (k + 1)) = List.replicate k d := by
  intro k
  induction k with
  | zero => intro t0; rfl
  | succ k ih =>
    intro t0
    have h1 : arithSeq t0 d (k + 1 + 1) = t0 :: (t0 + d) :: arithSeq (t0 + d + d) d k := rfl
    rw [h1, npDiff_cons_cons]
    have h2 : ((t0 + d) :: arithSeq (t0 + d + d) d k) = arithSeq (t0 + d) d (k + 1) := rfl
    rw [h2, ih (t0 + d), List.replicate_succ]
    congr 1
    ring

theorem getD_replicate_of_lt {n i : ℕ} (h : i < n) (a dflt : ℚ) :
    (List.replicate n a).getD i dflt = a := by
  rw [List.getD_eq_getElem?_getD, List.getElem?_replicate_of_lt h, Option.getD_some]

theorem insertionSort_replicate (n : ℕ) (a : ℚ) :
    List.insertionSort (fun x y => x ≤ y) (List.replicate n a) = List.replicate n a :=
  List.Sorted.insertionSort_eq (List.pairwise_replicate.mpr (Or.inr le_rfl))

theorem percentile95_replicate (k : ℕ) (a : ℚ) :
    percentile (List.replicate (k + 1) a) 95 = a := by
  have hne : ¬ List.replicate (k + 1) a = [] := by simp
  simp only [percentile]
  rw [if_neg hne]
  simp only [insertionSort_replicate, List.length_replicate, Nat.add_sub_cancel]
  have hh : (k : ℚ) * 95 / 100 ≤ (k : ℚ) := by
    have hk : (0 : ℚ) ≤ (k : ℚ) := Nat.cast_nonneg k
    linarith
  have hi : ⌊(k : ℚ) * 95 / 100⌋₊ ≤ k := by
    calc ⌊(k : ℚ) * 95 / 100⌋₊ ≤ ⌊(k : ℚ)⌋₊ := Nat.floor_le_floor hh
    _ = k := Nat.floor_natCast k
  rw [getD_replicate_of_lt (lt_of_le_of_lt hi (Nat.lt_succ_self k))]
  rcases lt_or_ge (⌊(k : ℚ) * 95 / 100⌋₊ + 1) (k + 1) with hlt2 | hge2
  · rw [getD_replicate_of_lt hlt2]
    ring
  · rw [List.getD_eq_getElem?_getD, List.getElem?_replicate,
      if_neg (not_lt.mpr hge2), Option.getD_none]
    ring

theorem estimate_fs_evenly_spaced (t0 d : ℚ) (k : ℕ) :
    estimate_fs (arithSeq t0 d (k + 2)) = 100 := by
  have hdiff : npDiff (arithSeq t0 d (k + 2)) = List.replicate (k + 1) d :=
    npDiff_arithSeq d (k + 1) t0
  simp only [estimate_fs, hdiff, List.map_replicate, percentile95_replicate]
  rw [List.filter_replicate_of_neg (by simp)]
  simp [DEFAULT_FS]

/-! ## Claim theorems -/

/-- C1: for every physiology score in `[0, 1]` and every metadata
adjustment in `[-0.35, 0.90]`, the risk-probability conversion on the
fixed baseline prevalence `0.12` returns a current risk in `[0, 0.50]`,
a ten-year risk in `[0, 0.65]` and a thirty-year risk in `[0, 0.80]`,
and the two projections are exactly the clipped multipliers on the
current risk that the spec states. -/
theorem risk_probability_bounds (ps m : ℚ) (hps0 : 0 ≤ ps) (hps1 : ps ≤ 1)
    (hm0 : -(35/100) ≤ m) (hm1 : m ≤ 90/100) :
    (0 ≤ (physiology_to_absolute_probability ps m BASELINE_PREVALENCE).current ∧
      (physiology_to_absolute_probability ps m BASELINE_PREVALENCE).current ≤ 50/100) ∧
    (0 ≤ (physiology_to_absolute_probability ps m BASELINE_PREVALENCE).ten ∧
      (physiology_to_absolute_probability ps m BASELINE_PREVALENCE).ten ≤ 65/100) ∧
    (0 ≤ (physiology_to_absolute_probability ps m BASELINE_PREVALENCE).thirty ∧
      (physiology_to_absolute_probability ps m BASELINE_PREVALENCE).thirty ≤ 80/100) ∧
    (physiology_to_absolute_probability ps m BASELINE_PREVALENCE).ten =
      clip ((physiology_to_absolute_probability ps m BASELINE_PREVALENCE).current *
        (1 + (40/100) * ps + max 0 m * (6/10))) 0 (65/100) ∧
    (physiology_to_absolute_probability ps m BASELINE_PREVALENCE).thirty =
      clip ((physiology_to_absolute_probability ps m BASELINE_PREVALENCE).current *
        (1 + (85/100) * ps + max 0 m * (11/10))) 0 (80/100) := by
  have hcap : max 0 (min ps 1) = ps := by rw [min_eq_left hps1, max_eq_right hps0]
  have hun : physiology_to_absolute_probability ps m BASELINE_PREVALENCE =
      { current := clip (BASELINE_PREVALENCE *
          (1 + (60/100) * (ps * (18/10)) + (40/100) * (m * (12/10)))) 0 (50/100)
        ten := clip (clip (BASELINE_PREVALENCE *
          (1 + (60/100) * (ps * (18/10)) + (40/100) * (m * (12/10)))) 0 (50/100) *
          (1 + (40/100) * ps + max 0 m * (6/10))) 0 (65/100)
        thirty := clip (clip (BASELINE_PREVALENCE *
          (1 + (60/100) * (ps * (18/10)) + (40/100) * (m * (12/10)))) 0 (50/100) *
          (1 + (85/100) * ps + max 0 m * (11/10))) 0 (80/100) } := by
    simp only [physiology_to_absolute_probability, hcap]
  rw [hun]
  exact ⟨clip_le (by norm_num), clip_le (by norm_num), clip_le (by norm_num), rfl, rfl⟩

/-- Witness for `risk_probability_bounds` at physiology score `1/2` and
metadata adjustment `1/10`. -/
theorem risk_probability_bounds_witness :
    0 ≤ (physiology_to_absolute_probability (1/2) (1/10) BASELINE_PREVALENCE).current ∧
    (physiology_to_absolute_probability (1/2) (1/10) BASELINE_PREVALENCE).current ≤ 50/100 :=
  (risk_probability_bounds (1/2) (1/10) (by norm_num) (by norm_num)
    (by norm_num) (by norm_num)).1

/-- C2: for every metadata mapping the adjustment is the clamp to
`[-0.35, 0.90]` of the independently summed tier contributions, so it
always lies in that interval. -/
theorem metadata_adjustment_bounds (m : Metadata) :
    compute_metadata_adjustment m =
      clip ((if truthyFlag m.family then FAMILY_W else 0) + age_contrib m.age
        + activity_contrib m.activity + sleep_contrib m.sleep_hours
        + (if truthyFlag m.smoking then SMOKE_W else 0)) (-(35/100)) (90/100) ∧
    -(35/100) ≤ compute_metadata_adjustment m ∧
    compute_metadata_adjustment m ≤ 90/100 :=
  ⟨rfl, (clip_le (by norm_num)).1, (clip_le (by norm_num)).2⟩

/-- C3 counterexample: an activity value of `3` (the moderate `3 ≤ act < 4`
tier) contributes `-0.20 × 0.3 = -0.06`, which is negative: it decreases
the metadata adjustment instead of adding a penalty, as an all-neutral
profile with activity `3` shows end to end. -/
theorem moderate_activity_is_protective :
    activity_contrib (some 3) = -(6/100) ∧
    activity_contrib (some 3) < 0 ∧
    compute_metadata_adjustment ⟨none, none, none, none, some 3⟩ = -(6/100) ∧
    compute_metadata_adjustment ⟨none, none, none, none, some 3⟩ <
      compute_metadata_adjustment ⟨none, none, none, none, none⟩ := by
  norm_num [compute_metadata_adjustment, activity_contrib, age_contrib, sleep_contrib,
    truthyFlag, clip, ACT_W, min_def, max_def]

/-- C3 amended: the activity tiers contribute `+0.20` for `act ≤ 1`,
`+0.10` for `act = 2`, `-0.06` (a protective reduction, `0.3` of the
negative activity weight) for `3 ≤ act < 4`, and `-0.16` (`0.8` of the
weight) for `act ≥ 4`. -/
theorem activity_tiers (act : ℚ) :
    (act ≤ 1 → activity_contrib (some act) = 20/100) ∧
    (act = 2 → activity_contrib (some act) = 10/100) ∧
    (3 ≤ act → act < 4 → activity_contrib (some act) = -(6/100)) ∧
    (4 ≤ act → activity_contrib (some act) = -(16/100)) := by
  refine ⟨?_, ?_, ?_, ?_⟩
  · intro h
    simp only [activity_contrib]
    rw [if_pos h]
    norm_num [ACT_W, abs]
  · intro h
    subst h
    simp only [activity_contrib]
    rw [if_neg (by norm_num)]
    norm_num [ACT_W, abs]
  · intro h3 h4
    simp only [activity_contrib]
    rw [if_neg (by linarith), if_neg (by rintro rfl; linarith), if_pos ⟨h3, h4⟩]
    norm_num [ACT_W]
  · intro h4
    simp only [activity_contrib]
    rw [if_neg (by linarith), if_neg (by rintro rfl; linarith),
      if_neg (fun hc => by linarith [hc.2])]
    norm_num [ACT_W]

/-- Witness for `activity_tiers` at one input per tier. -/
theorem activity_tiers_witness :
    activity_contrib (some 1) = 20/100 ∧ activity_contrib (some 2) = 10/100 ∧
    activity_contrib (some 3) = -(6/100) ∧ activity_contrib (some 5) = -(16/100) :=
  ⟨(activity_tiers 1).1 le_rfl, (activity_tiers 2).2.1 rfl,
    (activity_tiers 3).2.2.1 le_rfl (by norm_num), (activity_tiers 5).2.2.2 (by norm_num)⟩

/-- C10: a numeric activity value strictly between 1 and 2 or strictly
between 2 and 3 matches none of the sedentary / low / moderate
conditions and falls into the final `else` branch, receiving the
protective active bonus `-0.20 × 0.8` (a negative contribution). -/
theorem intermediate_activity_gets_active_bonus (act : ℚ)
    (h : (1 < act ∧ act < 2) ∨ (2 < act ∧ act < 3)) :
    activity_contrib (some act) = ACT_W * (8/10) ∧ activity_contrib (some act) < 0 := by
  have h1 : ¬ act ≤ 1 := by rcases h with ⟨ha, _⟩ | ⟨ha, _⟩ <;> linarith
  have h2 : ¬ act = 2 := by
    rintro rfl
    rcases h with ⟨_, hb⟩ | ⟨ha, _⟩ <;> linarith
  have h3 : ¬ (3 ≤ act ∧ act < 4) := by
    rintro ⟨hc, _⟩
    rcases h with ⟨_, hb⟩ | ⟨_, hb⟩ <;> linarith
  simp only [activity_contrib]
  rw [if_neg h1, if_neg h2, if_neg h3]
  norm_num [ACT_W]

/-- Witness for `intermediate_activity_gets_active_bonus` at activity `3/2`. -/
theorem intermediate_activity_witness :
    activity_contrib (some (3/2)) = ACT_W * (8/10) ∧ activity_contrib (some (3/2)) < 0 :=
  intermediate_activity_gets_active_bonus (3/2) (Or.inl ⟨by norm_num, by norm_num⟩)

/-- C4: with detected peaks `[5, 10, 20]` and detected valleys
`[7, 15]` (a recording that starts mid-upstroke, so the first peak
precedes every foot), `detect_beats` pairs foot 7 with peak 10 and
foot 15 with peak 20; the positional truncation in
`extract_ppg_features` then passes the two-pair guard and pairs foot 7
with peak 5 and foot 15 with peak 10: a beat is created for peak 5,
which precedes both detected feet, and that beat's foot index 7
exceeds its peak index 5. -/
theorem beat_pairing_violated_at_example :
    pairedFeet [5, 10, 20] [7, 15] = [7, 15] ∧
    (detect_beats [5, 10, 20] [7, 15]).foot_indices = [7, 15] ∧
    extract_ppg_features [5, 10, 20] (pairedFeet [5, 10, 20] [7, 15]) =
      some [(7, 5), (15, 10)] ∧
    ¬ ((7 : ℕ) < 5) ∧
    (5 : ℕ) < 7 ∧ (5 : ℕ) < 15 := by decide

/-- C5 counterexample: with detected peaks `[4, 12]` and valleys `[8]`,
two peaks are detected (the claimed success condition) yet the paired
foot list has length 1, so the truncated pair count is below 2 and
`extract_ppg_features` returns the empty result. -/
theorem extract_fails_with_two_peaks :
    ([4, 12] : List ℕ).length = 2 ∧
    pairedFeet [4, 12] [8] = [8] ∧
    extract_ppg_features [4, 12] (pairedFeet [4, 12] [8]) = none := by decide

/-- C5 amended: the extractor fails (returns the empty record) exactly
when fewer than 2 truncated peak/foot pairs exist, i.e. when
`min(#peaks, #feet) < 2`; on success it produces one beat pair per
truncated position. -/
theorem extract_guard (peak_indices foot_indices : List ℕ) :
    (extract_ppg_features peak_indices foot_indices = none ↔
      min peak_indices.length foot_indices.length < 2) ∧
    (∀ l, extract_ppg_features peak_indices foot_indices = some l →
      l.length = min peak_indices.length foot_indices.length) := by
  simp only [extract_ppg_features]
  have hp : (peak_indices.take (min peak_indices.length foot_indices.length)).length =
      min peak_indices.length foot_indices.length := by
    rw [List.length_take]
    exact min_eq_left (min_le_left _ _)
  have hf : (foot_indices.take (min peak_indices.length foot_indices.length)).length =
      min peak_indices.length foot_indices.length := by
    rw [List.length_take]
    exact min_eq_left (min_le_right _ _)
  split_ifs with h
  · rw [hp] at h
    exact ⟨iff_of_true rfl h, fun l hl => by cases hl⟩
  · rw [hp] at h
    refine ⟨iff_of_false (by simp) h, fun l hl => ?_⟩
    rw [← Option.some.inj hl, List.length_zip, hf, hp, min_self]

/-- Witness for `extract_guard`: a successful extraction over three
matched peak/foot pairs yields three beats. -/
theorem extract_guard_witness :
    ([(0, 1), (1, 2), (2, 3)] : List (ℕ × ℕ)).length =
      min ([1, 2, 3] : List ℕ).length ([0, 1, 2] : List ℕ).length :=
  (extract_guard [1, 2, 3] [0, 1, 2]).2 [(0, 1), (1, 2), (2, 3)] (by decide)

/-- C6 counterexample: with peaks `[3, 9]` and valleys `[6]` only one
peak receives a preceding foot, yet `detect_beats` reports
`beats_count = 2`, the total number of detected peaks. -/
theorem beats_count_counts_all_peaks :
    (detect_beats [3, 9] [6]).beats_count = 2 ∧
    peaksWithFoot [3, 9] [6] = 1 ∧
    (detect_beats [3, 9] [6]).beats_count ≠ peaksWithFoot [3, 9] [6] := by decide

/-- C6 amended: the reported `beats_count` is the total number of
detected peaks; it coincides with the number of peaks that received a
preceding foot exactly in runs where every detected peak has some
valley before it. -/
theorem beats_count_eq_total_peaks (peaks valleys : List ℕ) :
    (detect_beats peaks valleys).beats_count = peaks.length ∧
    ((∀ p ∈ peaks, ∃ v ∈ valleys, v < p) →
      (detect_beats peaks valleys).beats_count = peaksWithFoot peaks valleys) := by
  refine ⟨rfl, fun hall => ?_⟩
  show peaks.length = peaksWithFoot peaks valleys
  unfold peaksWithFoot
  have hfil : peaks.filter (fun p => !(valleys.filter (fun v => decide (v < p))).isEmpty)
      = peaks := by
    rw [List.filter_eq_self]
    intro a ha
    obtain ⟨v, hv, hlt⟩ := hall a ha
    have hmem : v ∈ valleys.filter (fun x => decide (x < a)) :=
      List.mem_filter.mpr ⟨hv, by simpa using hlt⟩
    simpa using List.ne_nil_of_mem hmem
  rw [hfil]

/-- Witness for `beats_count_eq_total_peaks` on a run where the only
peak has a preceding valley. -/
theorem beats_count_witness :
    (detect_beats [10] [2]).beats_count = peaksWithFoot [10] [2] :=
  (beats_count_eq_total_peaks [10] [2]).2 (by decide)

/-- C7 counterexample: for the band `[0, 1/2000000]` (positive width
below `1e-6`) and the out-of-band value `3/4000000`, the code divides by
`max(1e-6, high - low) = 1e-6` and returns `1/4`, while the spec's
formula divides by `high - low` and yields `1/2`. -/
theorem risk_deviation_narrow_band_differs :
    (0 : ℚ) < 1/2000000 ∧
    ¬ ((0 : ℚ) ≤ 3/4000000 ∧ (3/4000000 : ℚ) ≤ 1/2000000) ∧
    risk_from_deviation (some (3/4000000)) 0 (1/2000000) 1 = 1/4 ∧
    risk_spec_formula (3/4000000) 0 (1/2000000) = 1/2 ∧
    risk_from_deviation (some (3/4000000)) 0 (1/2000000) 1 ≠
      risk_spec_formula (3/4000000) 0 (1/2000000) := by
  norm_num [risk_from_deviation, risk_spec_formula, clip, min_def, max_def, abs]

/-- C7 amended: the per-feature deviation risk is 0 inside the band,
equals the spec's `clip(min(|v-low|, |v-high|)/(high-low), 0, 1)`
formula whenever the band is at least `1e-6` wide (the code's
denominator is `max(1e-6, high-low)`), always lies in `[0, 1]`, and is
monotonically non-decreasing in the distance from the nearer bound. -/
theorem risk_deviation_props (lo hi : ℚ) (hlt : lo < hi) (v w : ℚ) :
    (lo ≤ v ∧ v ≤ hi → risk_from_deviation (some v) lo hi 1 = 0) ∧
    (1/1000000 ≤ hi - lo →
      risk_from_deviation (some v) lo hi 1 = risk_spec_formula v lo hi) ∧
    (0 ≤ risk_from_deviation (some v) lo hi 1 ∧
      risk_from_deviation (some v) lo hi 1 ≤ 1) ∧
    (¬ (lo ≤ v ∧ v ≤ hi) → ¬ (lo ≤ w ∧ w ≤ hi) →
      min |v - lo| |v - hi| ≤ min |w - lo| |w - hi| →
      risk_from_deviation (some v) lo hi 1 ≤ risk_from_deviation (some w) lo hi 1) := by
  refine ⟨?_, ?_, ?_, ?_⟩
  · intro h
    simp only [risk_from_deviation]
    rw [if_pos h]
  · intro hwide
    have hmax : max ((1 : ℚ)/1000000) (hi - lo) = hi - lo := max_eq_right hwide
    simp only [risk_from_deviation, risk_spec_formula, hmax, mul_one]
  · simp only [risk_from_deviation]
    split_ifs with h
    · norm_num
    · exact clip_le (by norm_num)
  · intro hv hw hd
    simp only [risk_from_deviation]
    rw [if_neg hv, if_neg hw]
    apply clip_mono
    have hN : (0 : ℚ) < max (1/1000000) (hi - lo) :=
      lt_of_lt_of_le (by norm_num) (le_max_left _ _)
    rw [mul_one, mul_one]
    gcongr

/-- Witness for `risk_deviation_props` on the unit band at an outside
value. -/
theorem risk_deviation_props_witness :
    risk_from_deviation (some 2) 0 1 1 = risk_spec_formula 2 0 1 :=
  (risk_deviation_props 0 1 (by norm_num) 2 3).2.1 (by norm_num)

/-- C8: the physiology score of every finite feature record lies in
`[0, 1]`; it is exactly 0 when each of the five weighted features is
within its healthy band whenever present; and a missing or unparseable
value contributes zero deviation risk. -/
theorem physiology_score_props (f : FeatureRecord) :
    (0 ≤ compute_physiology_score f ∧ compute_physiology_score f ≤ 1) ∧
    ((optInBand f.heart_rate_bpm 60 100 ∧ optInBand f.hrv_ms 20 120 ∧
      optInBand f.amplitude_mean (2/10) (12/10) ∧
      optInBand f.rise_time_mean_s (12/100) (6/10) ∧
      optInBand f.bmi (185/10) (249/10)) → compute_physiology_score f = 0) ∧
    (∀ lo hi wt : ℚ, risk_from_deviation none lo hi wt = 0) := by
  refine ⟨?_, ?_, fun lo hi wt => rfl⟩
  · simp only [compute_physiology_score]
    rw [if_neg (by norm_num)]
    exact clip_le (by norm_num)
  · rintro ⟨h1, h2, h3, h4, h5⟩
    simp only [compute_physiology_score, risk_from_deviation_of_inBand h1,
      risk_from_deviation_of_inBand h2, risk_from_deviation_of_inBand h3,
      risk_from_deviation_of_inBand h4, risk_from_deviation_of_inBand h5]
    norm_num [clamp01, clip]

/-- Witness for `physiology_score_props`: the spec's all-in-band
scenario (heart rate 75, HRV 60, amplitude 0.6, rise time 0.3, BMI 22)
scores exactly 0. -/
theorem physiology_score_witness :
    compute_physiology_score ⟨some 75, some 60, some (3/5), some (3/10), some 22⟩ = 0 :=
  (physiology_score_props ⟨some 75, some 60, some (3/5), some (3/10), some 22⟩).2.1
    ⟨fun x hx => by obtain rfl := Option.some.inj hx; norm_num,
     fun x hx => by obtain rfl := Option.some.inj hx; norm_num,
     fun x hx => by obtain rfl := Option.some.inj hx; norm_num,
     fun x hx => by obtain rfl := Option.some.inj hx; norm_num,
     fun x hx => by obtain rfl := Option.some.inj hx; norm_num⟩

/-- C9 counterexample: the evenly spaced millisecond timestamps
`[0, 20, 40, 60]` produce three valid deltas of 20 ms, whose mean's
reciprocal is 50 Hz; but every delta equals the 95th percentile, the
strict `<` filter keeps none of them, and the code falls back to the
default 100 Hz even though valid deltas exist. -/
theorem sampling_rate_counterexample :
    npDiff [0, 20, 40, 60] = [20, 20, 20] ∧
    estimate_fs [0, 20, 40, 60] = 100 ∧
    round_half_even (1 / ((((20 : ℚ)/1000) + 20/1000 + 20/1000) / 3)) = 50 ∧
    (100 : ℤ) ≠ 50 := by
  have harith : arithSeq 0 20 4 = [0, 20, 40, 60] := by norm_num [arithSeq]
  refine ⟨?_, ?_, ?_, by norm_num⟩
  · norm_num [npDiff]
  · rw [← harith]
    exact estimate_fs_evenly_spaced 0 20 2
  · norm_num [round_half_even, round_eq]

/-- C9 amended: the estimator keeps only the deltas strictly below
their 95th percentile, so the fixed default of 100 Hz is returned not
only when no deltas exist but for every evenly spaced timestamp
sequence of any length and spacing, where all deltas exist and equal
the percentile. -/
theorem sampling_rate_uniform_fallback (t0 d : ℚ) (k : ℕ) :
    (npDiff (arithSeq t0 d (k + 2))).length = k + 1 ∧
    estimate_fs (arithSeq t0 d (k + 2)) = 100 := by
  have hdiff : npDiff (arithSeq t0 d (k + 2)) = List.replicate (k + 1) d :=
    npDiff_arithSeq d (k + 1) t0
  exact ⟨by rw [hdiff, List.length_replicate], estimate_fs_evenly_spaced t0 d k⟩

end PPG
